import Mathlib

/-!
# GEVCU: OBD2 request handling and the motor-controller control core

A shallow embedding of `src/OBD2Handler.cpp` (the OBD2 request handler) and of the
data model declared in `src/MotorController.h`. The member functions that
`MotorController.h` declares are defined in `MotorController.cpp`, which is not among
the sources; they are modelled from the specification of the control core and marked
as such.

Conventions of the embedding

* `int16_t` and `int` values are `Int`; the readings of the motor controller are
  promoted to `int` before any arithmetic in the source, and no product in
  `OBD2Handler.cpp` leaves the 32-bit range, so only the conversions to `uint8_t`
  are reduced modulo 256.
* `/` on `int` truncates toward zero (`Int.tdiv`); a zero divisor is undefined
  behaviour in C++ and is modelled as the result `none`.
* a byte buffer (`byte *`) is a map from offsets to bytes; nothing in the model
  bounds the offset, so a write past the end of the caller's buffer is visible as a
  change of the map at that offset.
-/

namespace GEVCU

/-! ## Data model (`MotorController.h`) -/

/-- The `PowerMode` enum. -/
inductive PowerMode where
  | modeTorque
  | modeSpeed
  deriving DecidableEq

/-- The `MotorController::Gears` enum. -/
inductive Gears where
  | GEAR_NEUTRAL
  | GEAR_DRIVE
  | GEAR_REVERSE
  | GEAR_ERROR
  deriving DecidableEq

/-- The `MotorController::CruiseControlButton` enum. -/
inductive CruiseControlButton where
  | NONE
  | TOGGLE
  | RECALL
  | PLUS
  | MINUS
  | DISENGAGE
  deriving DecidableEq

/-- The class `MotorControllerConfiguration`. The PID gains (`double`) and the
dashboard speed sets are not used by any modelled operation and are left out. -/
structure MotorControllerConfiguration where
  invertDirection : Bool
  speedMax : Nat
  torqueMax : Nat
  slewRateMotor : Nat
  slewRateRegen : Nat
  maxMechanicalPowerMotor : Nat
  maxMechanicalPowerRegen : Nat
  reversePercent : Nat
  nominalVolt : Nat
  powerMode : PowerMode
  creepLevel : Nat
  creepSpeed : Nat
  brakeHold : Nat
  brakeHoldForceCoefficient : Nat
  cruiseLongPressDelta : Nat
  cruiseStepDelta : Nat
  cruiseUseRpm : Bool
  deriving DecidableEq

/-- The two states of the cruise controller's mode state machine. -/
inductive CruiseMode where
  | Disengaged
  | Engaged
  deriving DecidableEq

/-- The class `MotorController`: the readings reported by the inverter (protected
fields) and the control state (private fields). `config` is the configuration
returned by `getConfiguration()`. The last four fields have no member of their
own in the header: `cruiseMode` is the state of the cruise state machine,
`cruiseSpeedLast` distinguishes "never set" from a stored speed,
`cruiseSpeedCount` is the number of valid samples in the speed buffer and
`commFault` is the communication-fault state raised by the watchdog. The cruise
speeds are `double` in the header; they are only stored, copied, compared and
stepped by whole numbers here and are kept as integers. -/
structure MotorController where
  config : MotorControllerConfiguration
  speedActual : Int
  torqueActual : Int
  torqueAvailable : Int
  dcVoltage : Nat
  dcCurrent : Int
  acCurrent : Nat
  temperatureMotor : Int
  temperatureController : Int
  throttleLevel : Int
  torqueRequested : Int
  speedRequested : Int
  ticksNoMessage : Nat
  slewTimestamp : Nat
  minimumBatteryTemperature : Int
  brakeHoldActive : Bool
  brakeHoldStart : Nat
  brakeHoldLevel : Int
  gearChangeTimestamp : Nat
  gear : Gears
  cruiseSpeedTarget : Int
  cruiseSpeedActual : Int
  cruiseThrottle : Int
  cruiseSpeedLast : Option Int
  cruiseSpeedBuffer : List Int
  cruiseSpeedBufferPtr : Nat
  cruiseSpeedSum : Int
  cruiseControlEnabled : Bool
  cruiseLastButton : CruiseControlButton
  cruiseButtonPressed : Nat
  cruiseMode : CruiseMode
  cruiseSpeedCount : Nat
  commFault : Bool

/-! ## Byte buffers and C arithmetic -/

/-- A `byte *` buffer: the byte stored at each offset from the pointer. -/
abbrev Buffer := Nat → Nat

/-- The assignment `buf[i] = (uint8_t) v`: the value is reduced modulo 256. -/
def writeByte (buf : Buffer) (i : Nat) (v : Int) : Buffer :=
  fun j => if j = i then (v % 256).toNat else buf j

/-- The read `buf[i]` of a `byte`. -/
def readByte (buf : Buffer) (i : Nat) : Nat :=
  buf i % 256

/-- The `int` division `a / b` of C++: truncation toward zero, undefined (`none`)
for a zero divisor. -/
def cdiv (a b : Int) : Option Int :=
  if b = 0 then none else some (Int.tdiv a b)

/-! ## `OBD2Handler.cpp` -/

/-- `OBD2Handler::processShowData`: the SAE standard PID requests of mode 1. The
result is `none` when the source divides by zero, otherwise the returned flag
(was the request handled?) with the output buffer after the call. `inData` is a
parameter the source never reads. The getters of the motor controller
(`getTorqueActual()` and the like) read the member of the same name. -/
def processShowData (mc : MotorController) (pid : Nat) (_inData outData : Buffer) :
    Option (Bool × Buffer) :=
  if pid = 0 then
    some (true, writeByte (writeByte (writeByte (writeByte (writeByte outData 0 4)
      3 0b11011000) 4 0b00010000) 5 0b10000000) 6 0b00010011)
  else if pid = 1 then
    some (true, writeByte (writeByte (writeByte (writeByte (writeByte outData 0 4)
      3 0) 4 0) 5 0) 6 0)
  else if pid = 2 then
    some (false, outData)
  else if pid = 4 then
    match cdiv (255 * mc.torqueActual) mc.torqueAvailable with
    | none => none
    | some temp => some (true, writeByte (writeByte outData 0 1) 3 (temp % 256))
  else if pid = 5 then
    let temp := Int.tdiv mc.temperatureController 10
    let temp := if temp < -40 then -40 else temp
    let temp := if temp > 215 then 215 else temp
    let temp := temp + 40
    some (true, writeByte (writeByte outData 0 1) 3 temp)
  else if pid = 0xC then
    let temp := mc.speedActual * 4
    some (true, writeByte (writeByte (writeByte outData 0 2) 3 (Int.tdiv temp 256)) 4 temp)
  else if pid = 0x11 then
    let temp := Int.tdiv mc.throttleLevel 10
    let temp := if temp < 0 then 0 else temp
    let temp := Int.tdiv (255 * temp) 100
    some (true, writeByte (writeByte outData 0 1) 3 temp)
  else if pid = 0x1C then
    some (true, writeByte (writeByte outData 0 1) 3 1)
  else if pid = 0x1F then
    some (true, writeByte (writeByte (writeByte outData 0 2) 3 0) 4 0)
  else if pid = 0x20 then
    some (true, writeByte (writeByte (writeByte (writeByte (writeByte outData 0 4)
      3 0b10000000) 4 0b00000010) 5 0b00000000) 6 0b00000001)
  else if pid = 0x21 then
    some (true, writeByte (writeByte (writeByte outData 0 2) 3 0) 4 0)
  else if pid = 0x2F then
    some (true, writeByte (writeByte outData 0 1) 3 0)
  else if pid = 0x40 then
    some (true, writeByte (writeByte (writeByte (writeByte (writeByte outData 0 4)
      3 0b00000000) 4 0b00000000) 5 0b10000000) 6 0b00000001)
  else if pid = 0x51 then
    some (true, writeByte (writeByte outData 0 1) 3 8)
  else if pid = 0x60 then
    some (true, writeByte (writeByte (writeByte (writeByte (writeByte outData 0 4)
      3 0b11100000) 4 0b00000000) 5 0b00000000) 6 0b00000000)
  else if pid = 0x61 then
    match cdiv (100 * mc.torqueRequested) mc.torqueAvailable with
    | none => none
    | some temp => some (true, writeByte (writeByte outData 0 1) 3 (temp + 125))
  else if pid = 0x62 then
    match cdiv (100 * mc.torqueActual) mc.torqueAvailable with
    | none => none
    | some temp => some (true, writeByte (writeByte outData 0 1) 3 (temp + 125))
  else if pid = 0x63 then
    let temp := mc.torqueAvailable
    some (true, writeByte (writeByte (writeByte outData 0 2) 3 (Int.tdiv temp 256)) 4 (temp % 256))
  else
    some (false, outData)

/-- The `uint16_t pid` that `processRequest` computes from the request. -/
def requestPid (inData : Buffer) : Nat :=
  if readByte inData 1 < 10 then readByte inData 2
  else (readByte inData 2 * 256 + readByte inData 3) % 65536

/-- `OBD2Handler::processRequest`. Only mode 1 has a body; the `case` labels of the
other modes break at once, as does the missing `default`. -/
def processRequest (mc : MotorController) (inData outData : Buffer) :
    Option (Bool × Buffer) :=
  let out := writeByte outData 2 (readByte inData 2)
  let out := writeByte out 0 2
  let out :=
    if readByte inData 1 > 0x50 then writeByte (writeByte out 3 (readByte inData 3)) 0 3
    else out
  let mode := readByte inData 1
  let pid := requestPid inData
  if mode = 1 then
    match processShowData mc pid inData out with
    | none => none
    | some (ret, out) => some (ret, writeByte (writeByte out 1 (mode + 0x40)) 2 pid)
  else
    some (false, out)

/-- A request frame: `bytes` from offset 0, zero after them. -/
def frame (bytes : List Nat) : Buffer :=
  fun i => bytes.getD i 0

/-- An output buffer holding zero at every offset. -/
def zeroBuffer : Buffer :=
  fun _ => 0

/-! ## The control core (`MotorController.cpp`, modelled from the specification) -/

/-- Modelled from the spec: the build-time constants of `config.h` and the mapping
formula of `MotorController.cpp`, neither of which is among the sources. The spec
names each of them without giving a value: the debounce interval of the gear state
machine, the size of the speed sample buffer, the number of silent ticks at which
the communication fault is raised, the near-zero speed band and the brake level of
the brake-hold activation, the near-zero throttle band of the creep function, the
long-press threshold of the cruise buttons, the factor between power and torque
times speed, and the map from a throttle level to a torque and speed target in the
direction of the gear (the tick signs it by `driveSign`). -/
structure ControlConstants where
  gearDebounce : Nat
  speedBufferSize : Nat
  faultThreshold : Nat
  brakeHoldSpeedBand : Nat
  brakeHoldBrakeLevel : Nat
  creepThrottleBand : Nat
  longPressThreshold : Nat
  powerScale : Nat
  mapLevel : MotorControllerConfiguration → Gears → Int → Int × Int

/-- Modelled from the spec: what the inverter-independent collaborators supply to one
tick (section 6): the clock (`millis()`), the three digital inputs of the gear
selector, the accelerator and brake levels, whether valid feedback was observed
this tick, the minimum battery temperature, the output of the cruise PID regulator
(a floating-point computation, taken as given) and the road speed. -/
structure TickInputs where
  now : Nat
  driveEnable : Bool
  forward : Bool
  reverse : Bool
  accelerator : Int
  brake : Int
  feedback : Bool
  batteryTemperature : Int
  pidOutput : Int
  vehicleSpeed : Int

/-- The time elapsed between two readings of the 32-bit millisecond clock
(`uint32_t` subtraction, which wraps). -/
def elapsed (now since : Nat) : Nat :=
  (now % 4294967296 + 4294967296 - since % 4294967296) % 4294967296

/-- Modelled from the spec: the gear requested by the digital inputs (4.1).
Drive-enable false, or forward together with reverse, yields the error gear. -/
def requestedGear (inp : TickInputs) : Gears :=
  if inp.driveEnable = false ∨ (inp.forward = true ∧ inp.reverse = true) then Gears.GEAR_ERROR
  else if inp.forward = true then Gears.GEAR_DRIVE
  else if inp.reverse = true then Gears.GEAR_REVERSE
  else Gears.GEAR_NEUTRAL

/-- Modelled from the spec: `MotorController::updateGear` (4.1). A requested gear
that differs from the current one is accepted once the debounce interval has passed
since `gearChangeTimestamp`, which is then reset to the current time; otherwise the
previous gear is retained. -/
def updateGear (K : ControlConstants) (s : MotorController) (inp : TickInputs) :
    MotorController :=
  if requestedGear inp ≠ s.gear ∧ K.gearDebounce ≤ elapsed inp.now s.gearChangeTimestamp then
    { s with gear := requestedGear inp, gearChangeTimestamp := inp.now }
  else s

/-- Modelled from the spec: the speed filter (4.2). The sample overwrites the oldest
slot of the circular buffer, the running sum drops the evicted value and takes the
new one, the cursor advances modulo the buffer size, and the estimate is the sum
divided by the number of valid samples. A buffer of size 0 holds no sample and the
estimate is the sample itself. -/
def pushSpeed (K : ControlConstants) (s : MotorController) (sample : Int) : MotorController :=
  if K.speedBufferSize = 0 then { s with cruiseSpeedActual := sample }
  else
    let ptr := s.cruiseSpeedBufferPtr % K.speedBufferSize
    let evicted := s.cruiseSpeedBuffer.getD ptr 0
    let sum := s.cruiseSpeedSum - evicted + sample
    let count := min (s.cruiseSpeedCount + 1) K.speedBufferSize
    { s with
      cruiseSpeedBuffer := s.cruiseSpeedBuffer.set ptr sample
      cruiseSpeedBufferPtr := (ptr + 1) % K.speedBufferSize
      cruiseSpeedSum := sum
      cruiseSpeedCount := count
      cruiseSpeedActual := Int.tdiv sum count }

/-- Modelled from the spec: engagement of cruise control (4.3). It needs the master
switch and succeeds only when the actual speed is not below the creep speed cap;
otherwise the state is left as it is. -/
def cruiseEngage (s : MotorController) (target : Int) : MotorController :=
  if s.cruiseControlEnabled = true ∧ ¬ s.speedActual < s.config.creepSpeed then
    { s with cruiseMode := CruiseMode.Engaged, cruiseSpeedTarget := target }
  else s

/-- Modelled from the spec: `MotorController::cruiseControlDisengage` (4.3, event
`Disengage`). It moves to disengaged and saves `cruiseSpeedTarget` into
`cruiseSpeedLast` only if cruise control was engaged. -/
def cruiseControlDisengage (s : MotorController) : MotorController :=
  match s.cruiseMode with
  | CruiseMode.Engaged =>
    { s with cruiseMode := CruiseMode.Disengaged, cruiseSpeedLast := some s.cruiseSpeedTarget }
  | CruiseMode.Disengaged => s

/-- Modelled from the spec: `MotorController::cruiseControlToggle` (4.3, event
`Toggle`). Disengaged: engage with the current filtered speed as target. Engaged:
disengage and remember the target. -/
def cruiseControlToggle (s : MotorController) : MotorController :=
  match s.cruiseMode with
  | CruiseMode.Disengaged => cruiseEngage s s.cruiseSpeedActual
  | CruiseMode.Engaged => cruiseControlDisengage s

/-- Modelled from the spec: the event `Recall` (4.3). Engage with `cruiseSpeedLast`,
ignored if it was never set. The master switch gates it as it gates every
engagement; the minimum speed is the rule for engaging at the current speed
(`Toggle`, sections 4.3 and 8), the saved target is restored at any speed. -/
def cruiseControlRecall (s : MotorController) : MotorController :=
  match s.cruiseSpeedLast with
  | none => s
  | some v =>
    if s.cruiseControlEnabled = true then
      { s with cruiseMode := CruiseMode.Engaged, cruiseSpeedTarget := v }
    else s

/-- Modelled from the spec: `MotorController::cruiseControlAdjust` (4.3, events
`Plus` and `Minus`). The target moves by the delta while cruise control is
engaged. -/
def cruiseControlAdjust (s : MotorController) (delta : Int) : MotorController :=
  match s.cruiseMode with
  | CruiseMode.Engaged => { s with cruiseSpeedTarget := s.cruiseSpeedTarget + delta }
  | CruiseMode.Disengaged => s

/-- Modelled from the spec: the step of a `Plus` or `Minus` event (4.3). A new press
steps by `cruiseStepDelta`; a button held beyond the long-press threshold steps by
`cruiseLongPressDelta`; a button held for less does not step again. -/
def cruiseStep (K : ControlConstants) (s : MotorController) (now : Nat)
    (button : CruiseControlButton) : Int :=
  if button ≠ s.cruiseLastButton then s.config.cruiseStepDelta
  else if K.longPressThreshold ≤ elapsed now s.cruiseButtonPressed then
    s.config.cruiseLongPressDelta
  else 0

/-- Modelled from the spec: `MotorController::handleCruiseControlButton` (4.3). One
call is one button event; the time of a new press is kept in
`cruiseButtonPressed` and the button in `cruiseLastButton`. -/
def handleCruiseControlButton (K : ControlConstants) (s : MotorController) (now : Nat)
    (button : CruiseControlButton) : MotorController :=
  let step := cruiseStep K s now button
  let pressed := if button ≠ s.cruiseLastButton then now else s.cruiseButtonPressed
  let s1 := { s with cruiseLastButton := button, cruiseButtonPressed := pressed }
  match button with
  | CruiseControlButton.NONE => s1
  | CruiseControlButton.TOGGLE => cruiseControlToggle s1
  | CruiseControlButton.RECALL => cruiseControlRecall s1
  | CruiseControlButton.PLUS => cruiseControlAdjust s1 step
  | CruiseControlButton.MINUS => cruiseControlAdjust s1 (-step)
  | CruiseControlButton.DISENGAGE => cruiseControlDisengage s1

/-- Modelled from the spec: the creep floor of step 3 of the tick (4.5). With creep
configured, the vehicle below the creep speed and the throttle near zero, the level
is raised to the creep level (a percentage, the level is per mille). -/
def applyCreep (K : ControlConstants) (s : MotorController) (level : Int) : Int :=
  if s.config.creepLevel ≠ 0 ∧ s.speedActual.natAbs < s.config.creepSpeed ∧
      level.natAbs ≤ K.creepThrottleBand then
    max level (s.config.creepLevel * 10)
  else level

/-- Modelled from the spec: the candidate throttle level of step 3 of the tick (4.5).
Engaged: the PID output, defined over 0..2000, re-centered to the signed throttle
domain. Otherwise: the accelerator level with the creep floor. -/
def candidateLevel (K : ControlConstants) (s : MotorController) (inp : TickInputs) : Int :=
  match s.cruiseMode with
  | CruiseMode.Engaged => inp.pidOutput - 1000
  | CruiseMode.Disengaged => applyCreep K s inp.accelerator

/-- Modelled from the spec: `MotorController::processBrakeHold` (4.4). The result is
the state with the throttle level to use, or `none` when the force coefficient it
divides by is 0. While active, the hold is dropped when the brake is released or
the gear is neither drive nor reverse; otherwise the level moves by the roll speed
divided by the force coefficient, within the configured hold torque, and replaces
the throttle level. It is activated, at the configured hold torque opposing the
roll, in drive or reverse with the speed in the near-zero band, the brake above its
threshold and a nonzero hold percentage. -/
def processBrakeHold (K : ControlConstants) (s : MotorController) (now : Nat)
    (throttleLevel brakeLevel : Int) : Option (MotorController × Int) :=
  let hold : Int := s.config.brakeHold * 10
  let braking := K.brakeHoldBrakeLevel < brakeLevel.natAbs
  let driving := s.gear = Gears.GEAR_DRIVE ∨ s.gear = Gears.GEAR_REVERSE
  if s.brakeHoldActive = true then
    if ¬ braking ∨ ¬ driving then
      some ({ s with brakeHoldActive := false, brakeHoldLevel := 0 }, throttleLevel)
    else
      match cdiv (-s.speedActual) s.config.brakeHoldForceCoefficient with
      | none => none
      | some step =>
        let level := max (-hold) (min hold (s.brakeHoldLevel + step))
        some ({ s with brakeHoldLevel := level }, level)
  else if driving ∧ s.speedActual.natAbs ≤ K.brakeHoldSpeedBand ∧ braking ∧
      s.config.brakeHold ≠ 0 then
    let level := if 0 < s.speedActual then -hold else hold
    some ({ s with brakeHoldActive := true, brakeHoldStart := now, brakeHoldLevel := level },
      level)
  else
    some (s, throttleLevel)

/-- Modelled from the spec: `MotorController::checkBatteryTemperatureForRegen`. Regen
is allowed unless the minimum battery temperature is below the threshold
`minimumBatteryTemperature`. -/
def checkBatteryTemperatureForRegen (s : MotorController) (batteryTemperature : Int) : Bool :=
  decide (¬ batteryTemperature < s.minimumBatteryTemperature)

/-- A torque is regen when its sign is opposite to the direction of travel. -/
def isRegen (speed torque : Int) : Bool :=
  decide ((0 < speed ∧ torque < 0) ∨ (speed < 0 ∧ 0 < torque))

/-- Modelled from the spec: the regen gating of step 6 of the tick (4.5). A cold pack
must not accept charge: a regen target becomes 0. -/
def gateRegen (s : MotorController) (batteryTemperature : Int) (torque : Int) : Int :=
  if checkBatteryTemperatureForRegen s batteryTemperature = false ∧
      isRegen s.speedActual torque = true then 0
  else torque

/-- Modelled from the spec: the sign of the direction of the gear (step 5 of 4.5,
respecting `invertDirection`): a command of this sign accelerates the vehicle in the
direction of the gear. It is -1 in reverse and 1 otherwise, and the opposite for a
motor that runs inverted. -/
def driveSign (cfg : MotorControllerConfiguration) (gear : Gears) : Int :=
  if (decide (gear = Gears.GEAR_REVERSE) != cfg.invertDirection) = true then -1 else 1

/-- Modelled from the spec: the slew-rate limiting of step 7 of the tick (4.5). The
change from the previously committed value to the target is limited to the slew
rate times the elapsed time. The rate is the motoring rate when the target demands
more acceleration than the previous value, that is when it lies further in the
direction of the gear (`direction` is its sign), and the regen rate when it demands
more braking. -/
def slewLimit (cfg : MotorControllerConfiguration) (dt : Nat) (direction : Int)
    (previous target : Int) : Int :=
  let rate :=
    if direction * previous < direction * target then cfg.slewRateMotor
    else cfg.slewRateRegen
  if previous < target then min target (previous + rate * dt)
  else max target (previous - rate * dt)

/-- The torque with its magnitude capped at `limit`. -/
def capMagnitude (limit : Nat) (torque : Int) : Int :=
  if (limit : Int) < torque then limit
  else if torque < -(limit : Int) then -(limit : Int)
  else torque

/-- Modelled from the spec: the mechanical power limit of step 8 of the tick (4.5),
with power approximated by torque times speed. At a nonzero speed the torque
magnitude is capped at the motoring or regen power limit divided by the speed. -/
def limitPower (K : ControlConstants) (cfg : MotorControllerConfiguration)
    (speed torque : Int) : Int :=
  if speed = 0 then torque
  else if isRegen speed torque = true then
    capMagnitude (cfg.maxMechanicalPowerRegen * K.powerScale / speed.natAbs) torque
  else
    capMagnitude (cfg.maxMechanicalPowerMotor * K.powerScale / speed.natAbs) torque

/-- Modelled from the spec: `MotorController::reportActivity`. Feedback from the
controlled hardware resets `ticksNoMessage` to 0 and ends the fault state. -/
def reportActivity (s : MotorController) : MotorController :=
  { s with ticksNoMessage := 0, commFault := false }

/-- Modelled from the spec: `MotorController::checkActivity`, the watchdog step of a
tick without feedback. The 8-bit counter `ticksNoMessage` is incremented and the
fault state is entered when it has reached the threshold. The spec speaks both of
the counter exceeding a threshold and of the fault after exactly threshold silent
ticks; `faultThreshold` is the number of silent ticks of the latter. -/
def checkActivity (K : ControlConstants) (s : MotorController) : MotorController :=
  let ticks := (s.ticksNoMessage + 1) % 256
  { s with ticksNoMessage := ticks, commFault := s.commFault || decide (K.faultThreshold ≤ ticks) }

/-- Modelled from the spec: the implicit disengagement of cruise control (4.3), on
brake-pedal activity or in a gear other than drive. -/
def implicitDisengage (s : MotorController) (inp : TickInputs) : MotorController :=
  if s.cruiseMode = CruiseMode.Engaged ∧ (inp.brake ≠ 0 ∨ s.gear ≠ Gears.GEAR_DRIVE) then
    cruiseControlDisengage s
  else s

/-- The speed that cruise control regulates: rpm or road speed, per configuration. -/
def cruiseSpeedSample (s : MotorController) (inp : TickInputs) : Int :=
  if s.config.cruiseUseRpm = true then s.speedActual else inp.vehicleSpeed

/-- Modelled from the spec: step 2 of the tick and the cruise bookkeeping of step 3
(4.5, 4.3): the speed sample enters the filter, cruise control may be disengaged
implicitly, and the PID output is recorded in `cruiseThrottle`. -/
def updateCruise (K : ControlConstants) (s : MotorController) (inp : TickInputs) :
    MotorController :=
  { implicitDisengage (pushSpeed K s (cruiseSpeedSample s inp)) inp with
    cruiseThrottle := inp.pidOutput }

/-- Modelled from the spec: steps 2 to 5 of the tick (4.5) on a state whose gear has
been determined: speed filter and cruise state, the candidate throttle level, brake
hold, which may replace it, and the map of the level to the torque and speed
target, signed by the direction of the gear. A division by a zero force
coefficient, which the configuration commit excludes, is a numeric edge fault
(section 7) and is replaced by the safe default: the zero level on the state as it
was. The result is the state, the level and the signed target. -/
def mapThrottle (K : ControlConstants) (s : MotorController) (inp : TickInputs) :
    MotorController × Int × Int × Int :=
  let held := (processBrakeHold K (updateCruise K s inp) inp.now
      (candidateLevel K (updateCruise K s inp) inp) inp.brake).getD (updateCruise K s inp, 0)
  let target := K.mapLevel held.1.config held.1.gear held.2
  let sign := driveSign held.1.config held.1.gear
  (held.1, held.2, sign * target.1, sign * target.2)

/-- Modelled from the spec: the watchdog of step 9 of the tick (4.5): the counter is
reset when valid feedback was observed this tick and incremented and checked
otherwise. -/
def checkFeedback (K : ControlConstants) (s : MotorController) (inp : TickInputs) :
    MotorController :=
  if inp.feedback = true then reportActivity s else checkActivity K s

/-- Modelled from the spec: steps 6 to 9 of the tick (4.5) from the mapped target:
regen gating of the target, slew-rate limiting of torque and speed over the time
elapsed since `slewTimestamp`, the power limit on the torque, publication of the
command, and the watchdog. A cold pack must not accept charge: the regen gate also
holds for the torque that is published, whatever the limiters leave of an earlier
regen command. -/
def commitTarget (K : ControlConstants) (s : MotorController) (inp : TickInputs)
    (level torqueTarget speedTarget : Int) : MotorController :=
  let dt := elapsed inp.now s.slewTimestamp
  let sign := driveSign s.config s.gear
  let torque := slewLimit s.config dt sign s.torqueRequested
    (gateRegen s inp.batteryTemperature torqueTarget)
  let speed := slewLimit s.config dt sign s.speedRequested speedTarget
  checkFeedback K
    { s with
      throttleLevel := level
      torqueRequested :=
        gateRegen s inp.batteryTemperature (limitPower K s.config s.speedActual torque)
      speedRequested := speed
      slewTimestamp := inp.now } inp

/-- Modelled from the spec: `MotorController::handleTick`, the per-tick algorithm of
4.5. Step 1 advances the gear state machine; the error gear short-circuits the
steps that compute the command to a zero command. Step 9, the publication of the
command and the watchdog, ends every tick. -/
def handleTick (K : ControlConstants) (s : MotorController) (inp : TickInputs) :
    MotorController :=
  if (updateGear K s inp).gear = Gears.GEAR_ERROR then
    checkFeedback K { updateGear K s inp with torqueRequested := 0, speedRequested := 0 } inp
  else
    commitTarget K (mapThrottle K (updateGear K s inp) inp).1 inp
      (mapThrottle K (updateGear K s inp) inp).2.1
      (mapThrottle K (updateGear K s inp) inp).2.2.1
      (mapThrottle K (updateGear K s inp) inp).2.2.2

/-- Modelled from the spec: the validity of a configuration snapshot (sections 6 and
7). The force coefficient of brake hold must not be 0; the configuration of the
motor controller holds no pair of a minimum and a maximum that could be inverted. -/
def validConfiguration (cfg : MotorControllerConfiguration) : Bool :=
  decide (cfg.brakeHoldForceCoefficient ≠ 0)

/-- Modelled from the spec: `MotorController::loadConfiguration`, the commit of a
configuration snapshot (sections 6 and 7). An invalid snapshot is rejected and the
previous configuration stays active. The flag tells whether the snapshot was
committed. -/
def loadConfiguration (s : MotorController) (snapshot : MotorControllerConfiguration) :
    MotorController × Bool :=
  if validConfiguration snapshot = true then ({ s with config := snapshot }, true)
  else (s, false)

/-- A configuration for the evaluations: torque mode, 300.0 Nm, 6000 rpm, slew rates
of 1 per millisecond, creep speed cap 500 rpm. -/
def sampleConfiguration : MotorControllerConfiguration :=
  { invertDirection := false, speedMax := 6000, torqueMax := 3000, slewRateMotor := 1,
    slewRateRegen := 1, maxMechanicalPowerMotor := 1000, maxMechanicalPowerRegen := 1000,
    reversePercent := 50, nominalVolt := 3300, powerMode := PowerMode.modeTorque,
    creepLevel := 0, creepSpeed := 500, brakeHold := 0, brakeHoldForceCoefficient := 10,
    cruiseLongPressDelta := 500, cruiseStepDelta := 100, cruiseUseRpm := true }

/-- The motor controller at rest: every reading and every control value cleared,
gear neutral, cruise control disengaged. -/
def idleController : MotorController :=
  { config := sampleConfiguration, speedActual := 0, torqueActual := 0,
    torqueAvailable := 0, dcVoltage := 0, dcCurrent := 0, acCurrent := 0,
    temperatureMotor := 0, temperatureController := 0, throttleLevel := 0,
    torqueRequested := 0, speedRequested := 0, ticksNoMessage := 0, slewTimestamp := 0,
    minimumBatteryTemperature := 0, brakeHoldActive := false, brakeHoldStart := 0,
    brakeHoldLevel := 0, gearChangeTimestamp := 0, gear := Gears.GEAR_NEUTRAL,
    cruiseSpeedTarget := 0, cruiseSpeedActual := 0, cruiseThrottle := 0,
    cruiseSpeedLast := none, cruiseSpeedBuffer := [0, 0, 0, 0], cruiseSpeedBufferPtr := 0,
    cruiseSpeedSum := 0, cruiseControlEnabled := false,
    cruiseLastButton := CruiseControlButton.NONE, cruiseButtonPressed := 0,
    cruiseMode := CruiseMode.Disengaged, cruiseSpeedCount := 0, commFault := false }

/-- A map from the throttle level to the target for the evaluations, in the
direction of the gear: the torque is the level (per mille) of the maximum torque,
in reverse capped by `reversePercent`, and zero in the neutral and error gears; the
speed is the maximum speed. -/
def sampleMapLevel (cfg : MotorControllerConfiguration) (gear : Gears) (level : Int) :
    Int × Int :=
  match gear with
  | Gears.GEAR_DRIVE => (Int.tdiv (level * cfg.torqueMax) 1000, cfg.speedMax)
  | Gears.GEAR_REVERSE =>
    (Int.tdiv (Int.tdiv (level * cfg.torqueMax) 1000 * cfg.reversePercent) 100, cfg.speedMax)
  | _ => (0, 0)

/-- Constants for the evaluations: no gear debounce, four speed samples, the fault
after three silent ticks. -/
def sampleConstants : ControlConstants :=
  { gearDebounce := 0, speedBufferSize := 4, faultThreshold := 3, brakeHoldSpeedBand := 10,
    brakeHoldBrakeLevel := 100, creepThrottleBand := 10, longPressThreshold := 1000,
    powerScale := 1000000, mapLevel := sampleMapLevel }

/-- The inputs of a tick at time `now` with the selector in drive, the pedals
released and no feedback. -/
def driveInputs (now : Nat) : TickInputs :=
  { now := now, driveEnable := true, forward := true, reverse := false, accelerator := 0,
    brake := 0, feedback := false, batteryTemperature := 200, pidOutput := 1000,
    vehicleSpeed := 0 }

/-- A state for the evaluations: 300.0 Nm available, 150.0 Nm requested, -75.0 Nm
delivered. -/
def torqueState : MotorController :=
  { idleController with torqueAvailable := 3000, torqueRequested := 1500,
                        torqueActual := -750 }

/-- The PID whose answer holds the supported bit of PID `p`: 0x00 for 0x01..0x20,
0x20 for 0x21..0x40, 0x40 for 0x41..0x60, 0x60 for 0x61..0x80. -/
def bitfieldPid (p : Nat) : Nat :=
  (p - 1) / 32 * 32

/-- The bit of PID `p` in the 32-bit field that the answer to PID `base` holds in
`out[3..6]`: the field runs from the most significant bit of `out[3]`, which is PID
`base + 1`, to the least significant bit of `out[6]`, which is PID `base + 32`. -/
def supportedBit (out : Buffer) (base p : Nat) : Bool :=
  decide (out (3 + (p - base - 1) / 8) / 2 ^ (7 - (p - base - 1) % 8) % 2 = 1)

/-- The PIDs whose `case` in `processShowData` returns true. -/
def handledPids : List Nat :=
  [0, 1, 4, 5, 0xC, 0x11, 0x1C, 0x1F, 0x20, 0x21, 0x2F, 0x40, 0x51, 0x60, 0x61, 0x62, 0x63]

/-- The value `x` limited to the range from `lo` to `hi`, as the claims write
`clamp(x, lo, hi)`. -/
def clamp (x lo hi : Int) : Int :=
  max lo (min x hi)

/-! ## Properties of the OBD2 handler -/

theorem writeByte_same (buf : Buffer) (i : Nat) (v : Int) :
    writeByte buf i v i = (v % 256).toNat := by
  simp [writeByte]

theorem writeByte_other (buf : Buffer) (i j : Nat) (v : Int) (h : j ≠ i) :
    writeByte buf i v j = buf j := by
  simp [writeByte, h]

/-- C1 (the code as it stands): with `torqueAvailable` equal to 0, the requests for
PID 0x04, 0x61 and 0x62 reach the division without any check of the divisor, for
every other reading and every buffer: the handler divides by zero. -/
theorem processShowData_zero_torqueAvailable (mc : MotorController)
    (inData outData : Buffer) :
    processShowData { mc with torqueAvailable := 0 } 4 inData outData = none ∧
    processShowData { mc with torqueAvailable := 0 } 0x61 inData outData = none ∧
    processShowData { mc with torqueAvailable := 0 } 0x62 inData outData = none := by
  refine ⟨?_, ?_, ?_⟩ <;> simp [processShowData, cdiv]

/-- Every offset from 7 on is left alone by `processShowData`. -/
theorem processShowData_frame (mc : MotorController) (pid : Nat) (inData outData : Buffer)
    (r : Bool × Buffer) (h : processShowData mc pid inData outData = some r)
    (i : Nat) (hi : 7 ≤ i) : r.2 i = outData i := by
  have e0 : ¬ i = 0 := by omega
  have e3 : ¬ i = 3 := by omega
  have e4 : ¬ i = 4 := by omega
  have e5 : ¬ i = 5 := by omega
  have e6 : ¬ i = 6 := by omega
  unfold processShowData at h
  by_cases hp : pid = 0
  · rw [if_pos hp] at h; cases h; simp only [writeByte, e0, e3, e4, e5, e6, if_false]
  rw [if_neg hp] at h; clear hp
  by_cases hp : pid = 1
  · rw [if_pos hp] at h; cases h; simp only [writeByte, e0, e3, e4, e5, e6, if_false]
  rw [if_neg hp] at h; clear hp
  by_cases hp : pid = 2
  · rw [if_pos hp] at h; cases h; rfl
  rw [if_neg hp] at h; clear hp
  by_cases hp : pid = 4
  · rw [if_pos hp] at h
    split at h
    · cases h
    · cases h; simp only [writeByte, e0, e3, e4, e5, e6, if_false]
  rw [if_neg hp] at h; clear hp
  by_cases hp : pid = 5
  · rw [if_pos hp] at h; cases h; simp only [writeByte, e0, e3, e4, e5, e6, if_false]
  rw [if_neg hp] at h; clear hp
  by_cases hp : pid = 12
  · rw [if_pos hp] at h; cases h; simp only [writeByte, e0, e3, e4, e5, e6, if_false]
  rw [if_neg hp] at h; clear hp
  by_cases hp : pid = 17
  · rw [if_pos hp] at h; cases h; simp only [writeByte, e0, e3, e4, e5, e6, if_false]
  rw [if_neg hp] at h; clear hp
  by_cases hp : pid = 28
  · rw [if_pos hp] at h; cases h; simp only [writeByte, e0, e3, e4, e5, e6, if_false]
  rw [if_neg hp] at h; clear hp
  by_cases hp : pid = 31
  · rw [if_pos hp] at h; cases h; simp only [writeByte, e0, e3, e4, e5, e6, if_false]
  rw [if_neg hp] at h; clear hp
  by_cases hp : pid = 32
  · rw [if_pos hp] at h; cases h; simp only [writeByte, e0, e3, e4, e5, e6, if_false]
  rw [if_neg hp] at h; clear hp
  by_cases hp : pid = 33
  · rw [if_pos hp] at h; cases h; simp only [writeByte, e0, e3, e4, e5, e6, if_false]
  rw [if_neg hp] at h; clear hp
  by_cases hp : pid = 47
  · rw [if_pos hp] at h; cases h; simp only [writeByte, e0, e3, e4, e5, e6, if_false]
  rw [if_neg hp] at h; clear hp
  by_cases hp : pid = 64
  · rw [if_pos hp] at h; cases h; simp only [writeByte, e0, e3, e4, e5, e6, if_false]
  rw [if_neg hp] at h; clear hp
  by_cases hp : pid = 81
  · rw [if_pos hp] at h; cases h; simp only [writeByte, e0, e3, e4, e5, e6, if_false]
  rw [if_neg hp] at h; clear hp
  by_cases hp : pid = 96
  · rw [if_pos hp] at h; cases h; simp only [writeByte, e0, e3, e4, e5, e6, if_false]
  rw [if_neg hp] at h; clear hp
  by_cases hp : pid = 97
  · rw [if_pos hp] at h
    split at h
    · cases h
    · cases h; simp only [writeByte, e0, e3, e4, e5, e6, if_false]
  rw [if_neg hp] at h; clear hp
  by_cases hp : pid = 98
  · rw [if_pos hp] at h
    split at h
    · cases h
    · cases h; simp only [writeByte, e0, e3, e4, e5, e6, if_false]
  rw [if_neg hp] at h; clear hp
  by_cases hp : pid = 99
  · rw [if_pos hp] at h; cases h; simp only [writeByte, e0, e3, e4, e5, e6, if_false]
  rw [if_neg hp] at h; clear hp
  cases h; rfl

/-- The handler returns whenever no division by zero is reached: when
`torqueAvailable` is not 0, or the PID is not one of 0x04, 0x61, 0x62. -/
theorem processShowData_returns (mc : MotorController) (pid : Nat) (inData outData : Buffer)
    (h : mc.torqueAvailable ≠ 0 ∨ (pid ≠ 4 ∧ pid ≠ 0x61 ∧ pid ≠ 0x62)) :
    ∃ r, processShowData mc pid inData outData = some r := by
  unfold processShowData
  by_cases hp : pid = 0
  · rw [if_pos hp]; exact ⟨_, rfl⟩
  rw [if_neg hp]; clear hp
  by_cases hp : pid = 1
  · rw [if_pos hp]; exact ⟨_, rfl⟩
  rw [if_neg hp]; clear hp
  by_cases hp : pid = 2
  · rw [if_pos hp]; exact ⟨_, rfl⟩
  rw [if_neg hp]; clear hp
  by_cases hp : pid = 4
  · rw [if_pos hp]
    have ht : mc.torqueAvailable ≠ 0 := by
      rcases h with h | h
      · exact h
      · omega
    simp only [cdiv, if_neg ht]
    exact ⟨_, rfl⟩
  rw [if_neg hp]; clear hp
  by_cases hp : pid = 5
  · rw [if_pos hp]; exact ⟨_, rfl⟩
  rw [if_neg hp]; clear hp
  by_cases hp : pid = 12
  · rw [if_pos hp]; exact ⟨_, rfl⟩
  rw [if_neg hp]; clear hp
  by_cases hp : pid = 17
  · rw [if_pos hp]; exact ⟨_, rfl⟩
  rw [if_neg hp]; clear hp
  by_cases hp : pid = 28
  · rw [if_pos hp]; exact ⟨_, rfl⟩
  rw [if_neg hp]; clear hp
  by_cases hp : pid = 31
  · rw [if_pos hp]; exact ⟨_, rfl⟩
  rw [if_neg hp]; clear hp
  by_cases hp : pid = 32
  · rw [if_pos hp]; exact ⟨_, rfl⟩
  rw [if_neg hp]; clear hp
  by_cases hp : pid = 33
  · rw [if_pos hp]; exact ⟨_, rfl⟩
  rw [if_neg hp]; clear hp
  by_cases hp : pid = 47
  · rw [if_pos hp]; exact ⟨_, rfl⟩
  rw [if_neg hp]; clear hp
  by_cases hp : pid = 64
  · rw [if_pos hp]; exact ⟨_, rfl⟩
  rw [if_neg hp]; clear hp
  by_cases hp : pid = 81
  · rw [if_pos hp]; exact ⟨_, rfl⟩
  rw [if_neg hp]; clear hp
  by_cases hp : pid = 96
  · rw [if_pos hp]; exact ⟨_, rfl⟩
  rw [if_neg hp]; clear hp
  by_cases hp : pid = 97
  · rw [if_pos hp]
    have ht : mc.torqueAvailable ≠ 0 := by
      rcases h with h | h
      · exact h
      · omega
    simp only [cdiv, if_neg ht]
    exact ⟨_, rfl⟩
  rw [if_neg hp]; clear hp
  by_cases hp : pid = 98
  · rw [if_pos hp]
    have ht : mc.torqueAvailable ≠ 0 := by
      rcases h with h | h
      · exact h
      · omega
    simp only [cdiv, if_neg ht]
    exact ⟨_, rfl⟩
  rw [if_neg hp]; clear hp
  by_cases hp : pid = 99
  · rw [if_pos hp]; exact ⟨_, rfl⟩
  rw [if_neg hp]; clear hp
  exact ⟨_, rfl⟩

/-- Every offset from 7 on is left alone by `processRequest`. -/
theorem processRequest_frame (mc : MotorController) (inData outData : Buffer)
    (r : Bool × Buffer) (h : processRequest mc inData outData = some r)
    (i : Nat) (hi : 7 ≤ i) : r.2 i = outData i := by
  have e0 : ¬ i = 0 := by omega
  have e1 : ¬ i = 1 := by omega
  have e2 : ¬ i = 2 := by omega
  have e3 : ¬ i = 3 := by omega
  unfold processRequest at h
  simp only at h
  by_cases hm : readByte inData 1 = 1
  · rw [if_pos hm] at h
    split at h
    · cases h
    · rename_i ret out hs
      cases h
      have hf := processShowData_frame mc _ _ _ _ hs i hi
      simp only at hf
      simp only [writeByte, e1, e2, if_false, hf]
      split <;> simp only [writeByte, e0, e2, e3, if_false]
  · rw [if_neg hm] at h
    cases h
    simp only
    split <;> simp only [writeByte, e0, e2, e3, if_false]

/-- C9 (the code as it stands): the mode 1 request for PID 0 is handled and stores
the last byte of the supported-PID bitfield, 0b00010011, at offset 6 of the output
buffer, one past the end of a buffer of 6 bytes. -/
theorem processRequest_writes_offset_six (mc : MotorController) :
    ∃ out, processRequest mc (frame [2, 1, 0]) zeroBuffer = some (true, out) ∧
      out 6 = 0b00010011 ∧ zeroBuffer 6 = 0 := by
  refine ⟨_, rfl, ?_, rfl⟩
  simp [writeByte]

/-- C10 (the claim fails): a mode 2 request returns unhandled with offset 1 of the
output buffer still holding the caller's 0, not the mode plus 0x40 (0x42). -/
theorem processRequest_mode_two_keeps_byte_one :
    ∃ out, processRequest idleController (frame [2, 2, 0]) zeroBuffer = some (false, out) ∧
      out 1 = 0 ∧ (readByte (frame [2, 2, 0]) 1 + 0x40) % 256 = 0x42 := by
  refine ⟨_, rfl, ?_, ?_⟩
  · rfl
  · decide

/-- C10 (amended): a mode 1 request that reaches no division by zero returns with
the mode plus 0x40 (0x41) at offset 1 of the output buffer; a request of any other
mode returns false and leaves offset 1 as the caller supplied it. -/
theorem processRequest_mode_byte (mc : MotorController) (inData outData : Buffer) :
    (readByte inData 1 = 1 →
      (mc.torqueAvailable ≠ 0 ∨
        (requestPid inData ≠ 4 ∧ requestPid inData ≠ 0x61 ∧ requestPid inData ≠ 0x62)) →
      ∃ r, processRequest mc inData outData = some r ∧
        r.2 1 = (readByte inData 1 + 0x40) % 256 ∧ r.2 1 = 0x41) ∧
    (readByte inData 1 ≠ 1 →
      ∃ out, processRequest mc inData outData = some (false, out) ∧ out 1 = outData 1) := by
  constructor
  · intro hm hd
    unfold processRequest
    simp only
    rw [if_pos hm]
    obtain ⟨⟨ret, out⟩, hr⟩ := processShowData_returns mc (requestPid inData) inData
      (if readByte inData 1 > 0x50 then
        writeByte (writeByte (writeByte (writeByte outData 2 (readByte inData 2)) 0 2) 3
          (readByte inData 3)) 0 3
      else writeByte (writeByte outData 2 (readByte inData 2)) 0 2) hd
    rw [hr]
    refine ⟨_, rfl, ?_, ?_⟩ <;> simp [writeByte, hm]
  · intro hm
    unfold processRequest
    simp only
    rw [if_neg hm]
    refine ⟨_, rfl, ?_⟩
    split <;> simp [writeByte]

/-- C10 (amended), at a concrete request: mode 1, PID 0x0C, on the blank
controller. -/
theorem processRequest_mode_byte_witness :
    ∃ r, processRequest idleController (frame [2, 1, 0xC]) zeroBuffer = some r ∧
      r.2 1 = (readByte (frame [2, 1, 0xC]) 1 + 0x40) % 256 ∧ r.2 1 = 0x41 :=
  (processRequest_mode_byte idleController (frame [2, 1, 0xC]) zeroBuffer).1 (by decide)
    (Or.inr (by decide))

/-! ## Properties of the control core -/

/-- C2: on every tick whose gear is determined as `GEAR_ERROR`, `handleTick` publishes
`torqueRequested = 0` and `speedRequested = 0`, whatever the accelerator level, the
brake level and the cruise state are. -/
theorem handleTick_error_gear (K : ControlConstants) (s : MotorController) (inp : TickInputs)
    (h : (updateGear K s inp).gear = Gears.GEAR_ERROR) :
    (handleTick K s inp).gear = Gears.GEAR_ERROR ∧
    (handleTick K s inp).torqueRequested = 0 ∧ (handleTick K s inp).speedRequested = 0 := by
  unfold handleTick
  rw [if_pos h]
  unfold checkFeedback
  split_ifs
  · exact ⟨h, rfl, rfl⟩
  · exact ⟨h, rfl, rfl⟩

/-- C2 at a concrete tick: driving with 50.0 Nm requested, cruise control engaged,
full accelerator, and the drive-enable input dropped. -/
theorem handleTick_error_gear_witness :
    (handleTick sampleConstants
        { idleController with gear := Gears.GEAR_DRIVE, torqueRequested := 500,
                              speedRequested := 6000, cruiseMode := CruiseMode.Engaged }
        { driveInputs 40 with driveEnable := false, accelerator := 1000 }).gear =
      Gears.GEAR_ERROR ∧
    (handleTick sampleConstants
        { idleController with gear := Gears.GEAR_DRIVE, torqueRequested := 500,
                              speedRequested := 6000, cruiseMode := CruiseMode.Engaged }
        { driveInputs 40 with driveEnable := false, accelerator := 1000 }).torqueRequested = 0 ∧
    (handleTick sampleConstants
        { idleController with gear := Gears.GEAR_DRIVE, torqueRequested := 500,
                              speedRequested := 6000, cruiseMode := CruiseMode.Engaged }
        { driveInputs 40 with driveEnable := false, accelerator := 1000 }).speedRequested = 0 :=
  handleTick_error_gear sampleConstants _ _ (by decide)

/-- C7: with cruise control disengaged and the actual speed below `creepSpeed`, a
Toggle event, by `cruiseControlToggle` or by `handleCruiseControlButton(TOGGLE)`,
leaves cruise control disengaged. -/
theorem toggle_below_creepSpeed (K : ControlConstants) (s : MotorController) (now : Nat)
    (hd : s.cruiseMode = CruiseMode.Disengaged)
    (hs : s.speedActual < s.config.creepSpeed) :
    (cruiseControlToggle s).cruiseMode = CruiseMode.Disengaged ∧
    (handleCruiseControlButton K s now CruiseControlButton.TOGGLE).cruiseMode =
      CruiseMode.Disengaged := by
  constructor
  · simp [cruiseControlToggle, cruiseEngage, hd, hs]
  · simp [handleCruiseControlButton, cruiseControlToggle, cruiseEngage, hd, hs]

/-- C7 at a concrete state: the master switch on, 120 rpm, creep speed cap 500 rpm. -/
theorem toggle_below_creepSpeed_witness :
    (cruiseControlToggle
      { idleController with cruiseControlEnabled := true, speedActual := 120,
                            cruiseSpeedActual := 120 }).cruiseMode = CruiseMode.Disengaged ∧
    (handleCruiseControlButton sampleConstants
      { idleController with cruiseControlEnabled := true, speedActual := 120,
                            cruiseSpeedActual := 120 } 7
      CruiseControlButton.TOGGLE).cruiseMode = CruiseMode.Disengaged :=
  toggle_below_creepSpeed sampleConstants _ 7 rfl (by decide)

/-- With a nonzero force coefficient the brake-hold computation never divides by
zero: it returns a state and a level. -/
theorem processBrakeHold_returns (K : ControlConstants) (s : MotorController) (now : Nat)
    (throttleLevel brakeLevel : Int) (h : s.config.brakeHoldForceCoefficient ≠ 0) :
    ∃ r, processBrakeHold K s now throttleLevel brakeLevel = some r := by
  have hc : ¬ ((s.config.brakeHoldForceCoefficient : Int) = 0) := by exact_mod_cast h
  unfold processBrakeHold
  simp only [cdiv, if_neg hc]
  split_ifs <;> exact ⟨_, rfl⟩

/-- C6: a configuration snapshot whose `brakeHoldForceCoefficient` is 0 is rejected
by `loadConfiguration` and the state, with the previously valid configuration, stays
as it was; so the active coefficient stays nonzero over every commit and the
brake-hold computation never divides by zero. -/
theorem loadConfiguration_zero_coefficient (K : ControlConstants) (s : MotorController)
    (snapshot : MotorControllerConfiguration) (now : Nat) (throttleLevel brakeLevel : Int) :
    (snapshot.brakeHoldForceCoefficient = 0 → loadConfiguration s snapshot = (s, false)) ∧
    (s.config.brakeHoldForceCoefficient ≠ 0 →
      (loadConfiguration s snapshot).1.config.brakeHoldForceCoefficient ≠ 0 ∧
      ∃ r, processBrakeHold K (loadConfiguration s snapshot).1 now throttleLevel brakeLevel =
        some r) := by
  constructor
  · intro h0
    simp [loadConfiguration, validConfiguration, h0]
  · intro hs
    have hc : (loadConfiguration s snapshot).1.config.brakeHoldForceCoefficient ≠ 0 := by
      unfold loadConfiguration validConfiguration
      by_cases hv : snapshot.brakeHoldForceCoefficient = 0
      · simp [hv, hs]
      · simp [hv]
    exact ⟨hc, processBrakeHold_returns K _ now throttleLevel brakeLevel hc⟩

/-- C6 at a concrete commit: the sample configuration with the coefficient set to 0
is offered to the controller at rest. -/
theorem loadConfiguration_zero_coefficient_witness :
    loadConfiguration idleController
        { sampleConfiguration with brakeHoldForceCoefficient := 0 } =
      (idleController, false) ∧
    (loadConfiguration idleController { sampleConfiguration with
      brakeHoldForceCoefficient := 0 }).1.config.brakeHoldForceCoefficient ≠ 0 :=
  ⟨(loadConfiguration_zero_coefficient sampleConstants idleController
      { sampleConfiguration with brakeHoldForceCoefficient := 0 } 0 0 0).1 rfl,
   ((loadConfiguration_zero_coefficient sampleConstants idleController
      { sampleConfiguration with brakeHoldForceCoefficient := 0 } 0 0 0).2 (by decide)).1⟩

/-- The power limit keeps the sign of the torque and never raises its magnitude. -/
theorem limitPower_between (K : ControlConstants) (cfg : MotorControllerConfiguration)
    (speed torque : Int) :
    min 0 torque ≤ limitPower K cfg speed torque ∧
    limitPower K cfg speed torque ≤ max 0 torque := by
  have hcap : ∀ m : Nat, min 0 torque ≤ capMagnitude m torque ∧
      capMagnitude m torque ≤ max 0 torque := by
    intro m
    unfold capMagnitude
    simp only [min_def, max_def]
    split_ifs <;> omega
  unfold limitPower
  split_ifs
  · simp only [min_def, max_def]
    split_ifs <;> omega
  · exact hcap _
  · exact hcap _


/-- The `int` division of C++ by a positive divisor, in terms of the floor division:
the quotient of the magnitudes with the sign of the dividend. -/
theorem tdiv_pos_divisor (a b : Int) (hb : 0 < b) :
    Int.tdiv a b = if 0 ≤ a then a / b else -((-a) / b) := by
  split_ifs with ha
  · exact Int.tdiv_eq_ediv ha (le_of_lt hb)
  · have h1 : Int.tdiv (-(-a)) b = -(Int.tdiv (-a) b) := Int.neg_tdiv (-a) b
    rw [neg_neg] at h1
    rw [h1, Int.tdiv_eq_ediv (by omega) (le_of_lt hb)]

/-- C14: for every actual speed `s` with 0 <= s <= 16383 rpm, PID 0x0C is handled and
returns `outData[0] = 2` with the two bytes A = `outData[3]`, B = `outData[4]` such
that (A * 256 + B) / 4 = s. -/
theorem engine_rpm_bytes (mc : MotorController) (inData outData : Buffer)
    (h0 : 0 ≤ mc.speedActual) (h1 : mc.speedActual ≤ 16383) :
    ∃ out, processShowData mc 0xC inData outData = some (true, out) ∧ out 0 = 2 ∧
      out 3 ≤ 255 ∧ out 4 ≤ 255 ∧
      (((out 3 * 256 + out 4) / 4 : Nat) : Int) = mc.speedActual := by
  have hd := tdiv_pos_divisor (mc.speedActual * 4) 256 (by decide)
  rw [if_pos (by omega)] at hd
  refine ⟨writeByte (writeByte (writeByte outData 0 2) 3 (Int.tdiv (mc.speedActual * 4) 256)) 4
    (mc.speedActual * 4), rfl, ?_, ?_, ?_, ?_⟩
  · simp [writeByte]
  · simp only [writeByte, hd]
    simp
    omega
  · simp only [writeByte]
    simp
    omega
  · simp only [writeByte, hd]
    simp
    omega

/-- C14 at a concrete reading: 3000 rpm gives A = 0x2E, B = 0xE0. -/
theorem engine_rpm_bytes_witness :
    ∃ out, processShowData { idleController with speedActual := 3000 } 0xC zeroBuffer
        zeroBuffer = some (true, out) ∧ out 0 = 2 ∧ out 3 ≤ 255 ∧ out 4 ≤ 255 ∧
      (((out 3 * 256 + out 4) / 4 : Nat) : Int) = 3000 :=
  engine_rpm_bytes { idleController with speedActual := 3000 } zeroBuffer zeroBuffer
    (by decide) (by decide)

/-- C15: for every controller temperature `t` (tenths of a degree), PID 0x05 is
handled and returns `outData[0] = 1` and one byte A = `outData[3]` with
A - 40 = clamp(t / 10, -40, 215), the division truncating toward zero; the value
converted to the byte lies in 0..255, so the conversion does not wrap. -/
theorem coolant_temperature_byte (mc : MotorController) (inData outData : Buffer) :
    ∃ out, processShowData mc 5 inData outData = some (true, out) ∧ out 0 = 1 ∧
      (out 3 : Int) - 40 = clamp (Int.tdiv mc.temperatureController 10) (-40) 215 ∧
      out 3 ≤ 255 := by
  refine ⟨_, rfl, ?_, ?_, ?_⟩
  · simp [writeByte]
  · simp only [writeByte, clamp, min_def, max_def]
    generalize Int.tdiv mc.temperatureController 10 = x
    simp
    split_ifs <;> omega
  · simp only [writeByte]
    generalize Int.tdiv mc.temperatureController 10 = x
    simp
    split_ifs <;> omega

/-- C16: for every throttle level `L` in [-1000, 1000], PID 0x11 is handled and
returns `outData[0] = 1` and one byte A = (255 * max(0, L / 10)) / 100, the
divisions truncating toward zero: A lies in 0..255, is 0 for every negative `L`, is
255 for `L` = 1000, and does not decrease when `L` grows (`mc'` holds the second
level). -/
theorem throttle_position_byte (mc mc' : MotorController) (inData outData : Buffer)
    (h1 : -1000 ≤ mc.throttleLevel) (h2 : mc.throttleLevel ≤ 1000)
    (h1' : -1000 ≤ mc'.throttleLevel) (h2' : mc'.throttleLevel ≤ 1000) :
    ∃ out out', processShowData mc 0x11 inData outData = some (true, out) ∧
      processShowData mc' 0x11 inData outData = some (true, out') ∧ out 0 = 1 ∧
      (out 3 : Int) = Int.tdiv (255 * max 0 (Int.tdiv mc.throttleLevel 10)) 100 ∧
      out 3 ≤ 255 ∧
      (mc.throttleLevel < 0 → out 3 = 0) ∧
      (mc.throttleLevel = 1000 → out 3 = 255) ∧
      (mc.throttleLevel ≤ mc'.throttleLevel → out 3 ≤ out' 3) := by
  have key : ∀ L : Int, -1000 ≤ L → L ≤ 1000 → ∃ A : Nat,
      (Int.tdiv (255 * (if Int.tdiv L 10 < 0 then 0 else Int.tdiv L 10)) 100 % 256).toNat = A ∧
      (A : Int) = (255 * (if 0 ≤ L then L / 10 else 0)) / 100 ∧
      Int.tdiv (255 * max 0 (Int.tdiv L 10)) 100 = (255 * (if 0 ≤ L then L / 10 else 0)) / 100 := by
    intro L hl hu
    refine ⟨_, rfl, ?_⟩
    have hd := tdiv_pos_divisor L 10 (by decide)
    by_cases hL : 0 ≤ L
    · rw [if_pos hL] at hd
      have hq : 0 ≤ L / 10 := by omega
      rw [hd, if_neg (by omega), if_pos hL, max_eq_right hq,
        tdiv_pos_divisor _ 100 (by decide), if_pos (by omega)]
      exact ⟨by omega, rfl⟩
    · rw [if_neg hL] at hd
      have hq : -(-L / 10) ≤ 0 := by omega
      rw [hd, if_neg hL, max_eq_left hq]
      by_cases hz : -(-L / 10) < 0
      · rw [if_pos hz]; exact ⟨by decide, by decide⟩
      · rw [if_neg hz]
        have : -(-L / 10) = 0 := by omega
        rw [this]; exact ⟨by decide, by decide⟩
  obtain ⟨A, hA, k1, k2⟩ := key mc.throttleLevel h1 h2
  obtain ⟨A', hA', k1', _⟩ := key mc'.throttleLevel h1' h2'
  refine ⟨_, _, rfl, rfl, ?_, ?_, ?_, ?_, ?_, ?_⟩
  · simp [writeByte]
  · simp only [writeByte, if_true]
    rw [hA, k1, k2]
  · simp only [writeByte, if_true]
    rw [hA]
    split_ifs at k1 <;> omega
  · intro hneg
    simp only [writeByte, if_true]
    rw [hA]
    rw [if_neg (by omega)] at k1
    omega
  · intro htop
    simp only [writeByte, if_true]
    rw [hA]
    rw [if_pos (by omega), htop] at k1
    omega
  · intro hle
    simp only [writeByte, if_true]
    rw [hA, hA']
    split_ifs at k1 k1' <;> omega

/-- C16 at concrete levels: -250 gives the byte 0, 500 gives 127. -/
theorem throttle_position_byte_witness :
    ∃ out out', processShowData { idleController with throttleLevel := -250 } 0x11 zeroBuffer
        zeroBuffer = some (true, out) ∧
      processShowData { idleController with throttleLevel := 500 } 0x11 zeroBuffer
        zeroBuffer = some (true, out') ∧ out 3 = 0 ∧ out' 3 = 127 := by
  obtain ⟨out, out', h, h', _, _, _, hneg, _, _⟩ := throttle_position_byte
    { idleController with throttleLevel := -250 } { idleController with throttleLevel := 500 }
    zeroBuffer zeroBuffer (by decide) (by decide) (by decide) (by decide)
  refine ⟨out, out', h, h', hneg (by decide), ?_⟩
  have h2 : processShowData { idleController with throttleLevel := 500 } 0x11 zeroBuffer
      zeroBuffer = some (true, writeByte (writeByte zeroBuffer 0 1) 3 127) := rfl
  rw [h2] at h'
  cases h'
  rfl

/-- A torque within the available torque is between -100 and 100 percent of it. -/
theorem percentage_bounds (torque available : Int) (ha : 0 < available)
    (h1 : -available ≤ torque) (h2 : torque ≤ available) :
    -100 ≤ Int.tdiv (100 * torque) available ∧ Int.tdiv (100 * torque) available ≤ 100 := by
  rw [tdiv_pos_divisor _ _ ha]
  split_ifs with hs
  · have hlo : 0 ≤ 100 * torque / available := Int.ediv_nonneg hs (le_of_lt ha)
    have hhi : 100 * torque / available ≤ 100 := Int.ediv_le_of_le_mul ha (by omega)
    omega
  · have hlo : 0 ≤ -(100 * torque) / available := Int.ediv_nonneg (by omega) (le_of_lt ha)
    have hhi : -(100 * torque) / available ≤ 100 := Int.ediv_le_of_le_mul ha (by omega)
    omega

/-- C17: for every `torqueAvailable` > 0, PID 0x61 for every `torqueRequested`
within it, and PID 0x62 for every `torqueActual` within it, each whatever the other
torque is, is handled and returns `outData[0] = 1` and one byte A = `outData[3]`
with A - 125 = (100 * T) / torqueAvailable, a percentage in [-100, 100]; A lies in
25..225, so the conversion to a byte does not wrap. -/
theorem torque_percentage_bytes (mc : MotorController) (inData outData : Buffer)
    (ha : 0 < mc.torqueAvailable) :
    (|mc.torqueRequested| ≤ mc.torqueAvailable →
      ∃ out, processShowData mc 0x61 inData outData = some (true, out) ∧ out 0 = 1 ∧
        (out 3 : Int) - 125 = Int.tdiv (100 * mc.torqueRequested) mc.torqueAvailable ∧
        -100 ≤ (out 3 : Int) - 125 ∧ (out 3 : Int) - 125 ≤ 100 ∧
        25 ≤ out 3 ∧ out 3 ≤ 225) ∧
    (|mc.torqueActual| ≤ mc.torqueAvailable →
      ∃ out, processShowData mc 0x62 inData outData = some (true, out) ∧ out 0 = 1 ∧
        (out 3 : Int) - 125 = Int.tdiv (100 * mc.torqueActual) mc.torqueAvailable ∧
        -100 ≤ (out 3 : Int) - 125 ∧ (out 3 : Int) - 125 ≤ 100 ∧
        25 ≤ out 3 ∧ out 3 ≤ 225) := by
  have hne : ¬ mc.torqueAvailable = 0 := by omega
  constructor
  · intro hr
    obtain ⟨r1, r2⟩ := abs_le.mp hr
    obtain ⟨p1, p2⟩ := percentage_bounds mc.torqueRequested mc.torqueAvailable ha r1 r2
    have e1 : processShowData mc 0x61 inData outData = some (true,
        writeByte (writeByte outData 0 1) 3
          (Int.tdiv (100 * mc.torqueRequested) mc.torqueAvailable + 125)) := by
      simp [processShowData, cdiv, hne]
    have b1 : (((Int.tdiv (100 * mc.torqueRequested) mc.torqueAvailable + 125) % 256).toNat
        : Int) = Int.tdiv (100 * mc.torqueRequested) mc.torqueAvailable + 125 := by omega
    refine ⟨_, e1, ?_, ?_, ?_, ?_, ?_, ?_⟩ <;>
      simp only [writeByte, if_true] <;> first | rfl | omega
  · intro hact
    obtain ⟨a1, a2⟩ := abs_le.mp hact
    obtain ⟨q1, q2⟩ := percentage_bounds mc.torqueActual mc.torqueAvailable ha a1 a2
    have e2 : processShowData mc 0x62 inData outData = some (true,
        writeByte (writeByte outData 0 1) 3
          (Int.tdiv (100 * mc.torqueActual) mc.torqueAvailable + 125)) := by
      simp [processShowData, cdiv, hne]
    have b2 : (((Int.tdiv (100 * mc.torqueActual) mc.torqueAvailable + 125) % 256).toNat
        : Int) = Int.tdiv (100 * mc.torqueActual) mc.torqueAvailable + 125 := by omega
    refine ⟨_, e2, ?_, ?_, ?_, ?_, ?_, ?_⟩ <;>
      simp only [writeByte, if_true] <;> first | rfl | omega

/-- C17 at concrete readings, 300.0 Nm available: PID 0x61 with 150.0 Nm requested
gives the byte 175 while the actual torque reads 500.0 Nm, out of range; PID 0x62
with -75.0 Nm actual gives 100 while the requested torque reads -400.0 Nm. -/
theorem torque_percentage_bytes_witness :
    (∃ out, processShowData { torqueState with torqueActual := 5000 } 0x61 zeroBuffer
        zeroBuffer = some (true, out) ∧ (out 3 : Int) - 125 = 50) ∧
    (∃ out, processShowData { torqueState with torqueRequested := -4000 } 0x62 zeroBuffer
        zeroBuffer = some (true, out) ∧ (out 3 : Int) - 125 = -25) := by
  obtain ⟨out, h, _, e, _⟩ := (torque_percentage_bytes { torqueState with torqueActual := 5000 }
    zeroBuffer zeroBuffer (by decide)).1 (by decide)
  obtain ⟨out', h', _, e', _⟩ := (torque_percentage_bytes
    { torqueState with torqueRequested := -4000 } zeroBuffer zeroBuffer (by decide)).2 (by decide)
  exact ⟨⟨out, h, by rw [e]; decide⟩, ⟨out', h', by rw [e']; decide⟩⟩

/-! ## The framing of the OBD2 answers -/

/-- C13 (the code as it stands): for a request of mode 0x20, the custom mode with a
PID of two bytes, `processRequest` leaves `outData[3]` as the caller supplied it and
sets `outData[0] = 2`: the second PID byte, 0x34, is not copied. -/
theorem processRequest_custom_mode_second_byte (mc : MotorController) (outData : Buffer) :
    0x09 < readByte (frame [3, 0x20, 0x12, 0x34]) 1 ∧
    ∃ out, processRequest mc (frame [3, 0x20, 0x12, 0x34]) outData = some (false, out) ∧
      out 0 = 2 ∧ out 2 = 0x12 ∧ out 3 = outData 3 ∧
      readByte (frame [3, 0x20, 0x12, 0x34]) 3 = 0x34 := by
  refine ⟨by decide, _, rfl, ?_, ?_, ?_, by decide⟩ <;> simp [writeByte, readByte, frame]

/-- What `processRequest` does with the PID bytes for every mode but 1: the second
byte is copied, and `outData[0]` is 3, exactly for the modes over 0x50. -/
theorem processRequest_pid_bytes (mc : MotorController) (inData outData : Buffer)
    (hm : readByte inData 1 ≠ 1) :
    ∃ out, processRequest mc inData outData = some (false, out) ∧
      out 2 = readByte inData 2 ∧
      out 0 = (if 0x50 < readByte inData 1 then 3 else 2) ∧
      out 3 = (if 0x50 < readByte inData 1 then readByte inData 3 else outData 3) := by
  have h2 : readByte inData 2 % 256 = readByte inData 2 := by simp [readByte]
  have h3 : readByte inData 3 % 256 = readByte inData 3 := by simp [readByte]
  unfold processRequest
  simp only
  rw [if_neg hm]
  refine ⟨_, rfl, ?_, ?_, ?_⟩
  · split_ifs
    all_goals simp [writeByte]
    all_goals omega
  · split_ifs <;> simp [writeByte]
  · split_ifs
    all_goals simp [writeByte]
    all_goals omega

/-! ## The supported-PID bitfields -/

/-- C11 (the code as it stands): the answer to PID 0x00 sets the bit of PID 0x02
(bit 6 of `outData[3]`), while `processShowData` returns false for PID 0x02 and
writes nothing. -/
theorem supported_bit_of_freeze_frame (mc : MotorController) (inData outData : Buffer) :
    bitfieldPid 2 = 0 ∧
    (∃ out, processShowData mc 0 inData outData = some (true, out) ∧
      supportedBit out 0 2 = true) ∧
    processShowData mc 2 inData outData = some (false, outData) := by
  refine ⟨by decide, ⟨_, rfl, ?_⟩, rfl⟩
  simp [supportedBit, writeByte]

/-- With `torqueAvailable` not 0, `processShowData` returns true exactly for the PIDs
of `handledPids`. -/
theorem processShowData_handled_iff (mc : MotorController) (pid : Nat) (inData outData : Buffer)
    (ht : ¬ mc.torqueAvailable = 0) :
    (∃ out, processShowData mc pid inData outData = some (true, out)) ↔ pid ∈ handledPids := by
  unfold processShowData
  by_cases hp : pid = 0
  · rw [if_pos hp]; subst hp
    exact ⟨fun _ => by simp [handledPids], fun _ => ⟨_, rfl⟩⟩
  rw [if_neg hp]
  by_cases hp : pid = 1
  · rw [if_pos hp]; subst hp
    exact ⟨fun _ => by simp [handledPids], fun _ => ⟨_, rfl⟩⟩
  rw [if_neg hp]
  by_cases hp : pid = 2
  · rw [if_pos hp]; subst hp
    exact ⟨fun h => (by obtain ⟨out, h⟩ := h; cases h), fun h => (by simp [handledPids] at h)⟩
  rw [if_neg hp]
  by_cases hp : pid = 4
  · rw [if_pos hp]; subst hp
    simp only [cdiv, if_neg ht]
    exact ⟨fun _ => by simp [handledPids], fun _ => ⟨_, rfl⟩⟩
  rw [if_neg hp]
  by_cases hp : pid = 5
  · rw [if_pos hp]; subst hp
    exact ⟨fun _ => by simp [handledPids], fun _ => ⟨_, rfl⟩⟩
  rw [if_neg hp]
  by_cases hp : pid = 12
  · rw [if_pos hp]; subst hp
    exact ⟨fun _ => by simp [handledPids], fun _ => ⟨_, rfl⟩⟩
  rw [if_neg hp]
  by_cases hp : pid = 17
  · rw [if_pos hp]; subst hp
    exact ⟨fun _ => by simp [handledPids], fun _ => ⟨_, rfl⟩⟩
  rw [if_neg hp]
  by_cases hp : pid = 28
  · rw [if_pos hp]; subst hp
    exact ⟨fun _ => by simp [handledPids], fun _ => ⟨_, rfl⟩⟩
  rw [if_neg hp]
  by_cases hp : pid = 31
  · rw [if_pos hp]; subst hp
    exact ⟨fun _ => by simp [handledPids], fun _ => ⟨_, rfl⟩⟩
  rw [if_neg hp]
  by_cases hp : pid = 32
  · rw [if_pos hp]; subst hp
    exact ⟨fun _ => by simp [handledPids], fun _ => ⟨_, rfl⟩⟩
  rw [if_neg hp]
  by_cases hp : pid = 33
  · rw [if_pos hp]; subst hp
    exact ⟨fun _ => by simp [handledPids], fun _ => ⟨_, rfl⟩⟩
  rw [if_neg hp]
  by_cases hp : pid = 47
  · rw [if_pos hp]; subst hp
    exact ⟨fun _ => by simp [handledPids], fun _ => ⟨_, rfl⟩⟩
  rw [if_neg hp]
  by_cases hp : pid = 64
  · rw [if_pos hp]; subst hp
    exact ⟨fun _ => by simp [handledPids], fun _ => ⟨_, rfl⟩⟩
  rw [if_neg hp]
  by_cases hp : pid = 81
  · rw [if_pos hp]; subst hp
    exact ⟨fun _ => by simp [handledPids], fun _ => ⟨_, rfl⟩⟩
  rw [if_neg hp]
  by_cases hp : pid = 96
  · rw [if_pos hp]; subst hp
    exact ⟨fun _ => by simp [handledPids], fun _ => ⟨_, rfl⟩⟩
  rw [if_neg hp]
  by_cases hp : pid = 97
  · rw [if_pos hp]; subst hp
    simp only [cdiv, if_neg ht]
    exact ⟨fun _ => by simp [handledPids], fun _ => ⟨_, rfl⟩⟩
  rw [if_neg hp]
  by_cases hp : pid = 98
  · rw [if_pos hp]; subst hp
    simp only [cdiv, if_neg ht]
    exact ⟨fun _ => by simp [handledPids], fun _ => ⟨_, rfl⟩⟩
  rw [if_neg hp]
  by_cases hp : pid = 99
  · rw [if_pos hp]; subst hp
    exact ⟨fun _ => by simp [handledPids], fun _ => ⟨_, rfl⟩⟩
  rw [if_neg hp]
  constructor
  · intro h; obtain ⟨out, h⟩ := h; cases h
  · intro h
    simp only [handledPids, List.mem_cons, List.mem_singleton, List.not_mem_nil, or_false] at h
    omega

/-- The supported bit of every PID from 0x01 to 0x80, read from the answer that holds
it: it is set for the PIDs of `handledPids` and for PID 0x02. -/
theorem supportedBit_table (mc : MotorController) (inData outData : Buffer) (p : Nat)
    (h1 : 1 ≤ p) (h2 : p ≤ 0x80) :
    ∃ field, processShowData mc (bitfieldPid p) inData outData = some (true, field) ∧
      supportedBit field (bitfieldPid p) p = decide (p ∈ handledPids ∨ p = 2) := by
  interval_cases p <;>
    exact ⟨_, rfl, by simp [supportedBit, writeByte, bitfieldPid, handledPids]⟩

/-- Apart from PID 0x02, and with `torqueAvailable` not 0, the supported-PID
bitfields tell the truth: for every other PID from 0x01 to 0x80 the bit is set if
and only if `processShowData` returns true for it. -/
theorem supportedBit_iff_handled (mc : MotorController) (inData outData : Buffer) (p : Nat)
    (ht : ¬ mc.torqueAvailable = 0) (h1 : 1 ≤ p) (h2 : p ≤ 0x80) (hp : p ≠ 2) :
    ∃ field, processShowData mc (bitfieldPid p) inData outData = some (true, field) ∧
      (supportedBit field (bitfieldPid p) p = true ↔
        ∃ out, processShowData mc p inData outData = some (true, out)) := by
  obtain ⟨field, hf, hb⟩ := supportedBit_table mc inData outData p h1 h2
  refine ⟨field, hf, ?_⟩
  rw [hb, processShowData_handled_iff mc p inData outData ht]
  simp [hp]

/-! ## The length byte of the OBD2 answers -/

/-- A handled PID stores its data length, 1, 2 or 4, in `out[0]`, leaves the offsets
1 and 2 and every offset from `3 + out[0]` on as they were, and fills the offsets
from 3 to `2 + out[0]` with bytes that do not depend on the buffer passed in. -/
theorem processShowData_length (mc : MotorController) (pid : Nat) (inData b b' out : Buffer)
    (h : processShowData mc pid inData b = some (true, out)) :
    (out 0 = 1 ∨ out 0 = 2 ∨ out 0 = 4) ∧
    (∀ i, 3 + out 0 ≤ i ∨ i = 1 ∨ i = 2 → out i = b i) ∧
    ∃ out', processShowData mc pid inData b' = some (true, out') ∧ out' 0 = out 0 ∧
      ∀ i, 3 ≤ i → i < 3 + out 0 → out' i = out i := by
  unfold processShowData at h
  by_cases hp : pid = 0
  · rw [if_pos hp] at h; subst hp; cases h
    refine ⟨?_, ?_, _, rfl, ?_, ?_⟩
    · simp [writeByte]
    · intro i hi
      simp [writeByte] at hi
      simp only [writeByte]
      split_ifs <;> first | rfl | omega
    · simp [writeByte]
    · intro i hi hi2
      simp [writeByte] at hi2
      simp only [writeByte]
      split_ifs <;> first | rfl | omega
  rw [if_neg hp] at h; clear hp
  by_cases hp : pid = 1
  · rw [if_pos hp] at h; subst hp; cases h
    refine ⟨?_, ?_, _, rfl, ?_, ?_⟩
    · simp [writeByte]
    · intro i hi
      simp [writeByte] at hi
      simp only [writeByte]
      split_ifs <;> first | rfl | omega
    · simp [writeByte]
    · intro i hi hi2
      simp [writeByte] at hi2
      simp only [writeByte]
      split_ifs <;> first | rfl | omega
  rw [if_neg hp] at h; clear hp
  by_cases hp : pid = 2
  · rw [if_pos hp] at h; cases h
  rw [if_neg hp] at h; clear hp
  by_cases hp : pid = 4
  · rw [if_pos hp] at h; subst hp
    cases hc : cdiv (255 * mc.torqueActual) mc.torqueAvailable with
    | none => rw [hc] at h; cases h
    | some temp =>
      rw [hc] at h; cases h
      have e : processShowData mc 4 inData b' = some (true,
          writeByte (writeByte b' 0 1) 3 (temp % 256)) := by
        simp [processShowData, hc]
      rw [e]
      refine ⟨?_, ?_, _, rfl, ?_, ?_⟩
      · simp [writeByte]
      · intro i hi
        simp [writeByte] at hi
        simp only [writeByte]
        split_ifs <;> first | rfl | omega
      · simp [writeByte]
      · intro i hi hi2
        simp [writeByte] at hi2
        simp only [writeByte]
        split_ifs <;> first | rfl | omega
  rw [if_neg hp] at h; clear hp
  by_cases hp : pid = 5
  · rw [if_pos hp] at h; subst hp; cases h
    refine ⟨?_, ?_, _, rfl, ?_, ?_⟩
    · simp [writeByte]
    · intro i hi
      simp [writeByte] at hi
      simp only [writeByte]
      split_ifs <;> first | rfl | omega
    · simp [writeByte]
    · intro i hi hi2
      simp [writeByte] at hi2
      simp only [writeByte]
      split_ifs <;> first | rfl | omega
  rw [if_neg hp] at h; clear hp
  by_cases hp : pid = 12
  · rw [if_pos hp] at h; subst hp; cases h
    refine ⟨?_, ?_, _, rfl, ?_, ?_⟩
    · simp [writeByte]
    · intro i hi
      simp [writeByte] at hi
      simp only [writeByte]
      split_ifs <;> first | rfl | omega
    · simp [writeByte]
    · intro i hi hi2
      simp [writeByte] at hi2
      simp only [writeByte]
      split_ifs <;> first | rfl | omega
  rw [if_neg hp] at h; clear hp
  by_cases hp : pid = 17
  · rw [if_pos hp] at h; subst hp; cases h
    refine ⟨?_, ?_, _, rfl, ?_, ?_⟩
    · simp [writeByte]
    · intro i hi
      simp [writeByte] at hi
      simp only [writeByte]
      split_ifs <;> first | rfl | omega
    · simp [writeByte]
    · intro i hi hi2
      simp [writeByte] at hi2
      simp only [writeByte]
      split_ifs <;> first | rfl | omega
  rw [if_neg hp] at h; clear hp
  by_cases hp : pid = 28
  · rw [if_pos hp] at h; subst hp; cases h
    refine ⟨?_, ?_, _, rfl, ?_, ?_⟩
    · simp [writeByte]
    · intro i hi
      simp [writeByte] at hi
      simp only [writeByte]
      split_ifs <;> first | rfl | omega
    · simp [writeByte]
    · intro i hi hi2
      simp [writeByte] at hi2
      simp only [writeByte]
      split_ifs <;> first | rfl | omega
  rw [if_neg hp] at h; clear hp
  by_cases hp : pid = 31
  · rw [if_pos hp] at h; subst hp; cases h
    refine ⟨?_, ?_, _, rfl, ?_, ?_⟩
    · simp [writeByte]
    · intro i hi
      simp [writeByte] at hi
      simp only [writeByte]
      split_ifs <;> first | rfl | omega
    · simp [writeByte]
    · intro i hi hi2
      simp [writeByte] at hi2
      simp only [writeByte]
      split_ifs <;> first | rfl | omega
  rw [if_neg hp] at h; clear hp
  by_cases hp : pid = 32
  · rw [if_pos hp] at h; subst hp; cases h
    refine ⟨?_, ?_, _, rfl, ?_, ?_⟩
    · simp [writeByte]
    · intro i hi
      simp [writeByte] at hi
      simp only [writeByte]
      split_ifs <;> first | rfl | omega
    · simp [writeByte]
    · intro i hi hi2
      simp [writeByte] at hi2
      simp only [writeByte]
      split_ifs <;> first | rfl | omega
  rw [if_neg hp] at h; clear hp
  by_cases hp : pid = 33
  · rw [if_pos hp] at h; subst hp; cases h
    refine ⟨?_, ?_, _, rfl, ?_, ?_⟩
    · simp [writeByte]
    · intro i hi
      simp [writeByte] at hi
      simp only [writeByte]
      split_ifs <;> first | rfl | omega
    · simp [writeByte]
    · intro i hi hi2
      simp [writeByte] at hi2
      simp only [writeByte]
      split_ifs <;> first | rfl | omega
  rw [if_neg hp] at h; clear hp
  by_cases hp : pid = 47
  · rw [if_pos hp] at h; subst hp; cases h
    refine ⟨?_, ?_, _, rfl, ?_, ?_⟩
    · simp [writeByte]
    · intro i hi
      simp [writeByte] at hi
      simp only [writeByte]
      split_ifs <;> first | rfl | omega
    · simp [writeByte]
    · intro i hi hi2
      simp [writeByte] at hi2
      simp only [writeByte]
      split_ifs <;> first | rfl | omega
  rw [if_neg hp] at h; clear hp
  by_cases hp : pid = 64
  · rw [if_pos hp] at h; subst hp; cases h
    refine ⟨?_, ?_, _, rfl, ?_, ?_⟩
    · simp [writeByte]
    · intro i hi
      simp [writeByte] at hi
      simp only [writeByte]
      split_ifs <;> first | rfl | omega
    · simp [writeByte]
    · intro i hi hi2
      simp [writeByte] at hi2
      simp only [writeByte]
      split_ifs <;> first | rfl | omega
  rw [if_neg hp] at h; clear hp
  by_cases hp : pid = 81
  · rw [if_pos hp] at h; subst hp; cases h
    refine ⟨?_, ?_, _, rfl, ?_, ?_⟩
    · simp [writeByte]
    · intro i hi
      simp [writeByte] at hi
      simp only [writeByte]
      split_ifs <;> first | rfl | omega
    · simp [writeByte]
    · intro i hi hi2
      simp [writeByte] at hi2
      simp only [writeByte]
      split_ifs <;> first | rfl | omega
  rw [if_neg hp] at h; clear hp
  by_cases hp : pid = 96
  · rw [if_pos hp] at h; subst hp; cases h
    refine ⟨?_, ?_, _, rfl, ?_, ?_⟩
    · simp [writeByte]
    · intro i hi
      simp [writeByte] at hi
      simp only [writeByte]
      split_ifs <;> first | rfl | omega
    · simp [writeByte]
    · intro i hi hi2
      simp [writeByte] at hi2
      simp only [writeByte]
      split_ifs <;> first | rfl | omega
  rw [if_neg hp] at h; clear hp
  by_cases hp : pid = 97
  · rw [if_pos hp] at h; subst hp
    cases hc : cdiv (100 * mc.torqueRequested) mc.torqueAvailable with
    | none => rw [hc] at h; cases h
    | some temp =>
      rw [hc] at h; cases h
      have e : processShowData mc 97 inData b' = some (true,
          writeByte (writeByte b' 0 1) 3 (temp + 125)) := by
        simp [processShowData, hc]
      rw [e]
      refine ⟨?_, ?_, _, rfl, ?_, ?_⟩
      · simp [writeByte]
      · intro i hi
        simp [writeByte] at hi
        simp only [writeByte]
        split_ifs <;> first | rfl | omega
      · simp [writeByte]
      · intro i hi hi2
        simp [writeByte] at hi2
        simp only [writeByte]
        split_ifs <;> first | rfl | omega
  rw [if_neg hp] at h; clear hp
  by_cases hp : pid = 98
  · rw [if_pos hp] at h; subst hp
    cases hc : cdiv (100 * mc.torqueActual) mc.torqueAvailable with
    | none => rw [hc] at h; cases h
    | some temp =>
      rw [hc] at h; cases h
      have e : processShowData mc 98 inData b' = some (true,
          writeByte (writeByte b' 0 1) 3 (temp + 125)) := by
        simp [processShowData, hc]
      rw [e]
      refine ⟨?_, ?_, _, rfl, ?_, ?_⟩
      · simp [writeByte]
      · intro i hi
        simp [writeByte] at hi
        simp only [writeByte]
        split_ifs <;> first | rfl | omega
      · simp [writeByte]
      · intro i hi hi2
        simp [writeByte] at hi2
        simp only [writeByte]
        split_ifs <;> first | rfl | omega
  rw [if_neg hp] at h; clear hp
  by_cases hp : pid = 99
  · rw [if_pos hp] at h; subst hp; cases h
    refine ⟨?_, ?_, _, rfl, ?_, ?_⟩
    · simp [writeByte]
    · intro i hi
      simp [writeByte] at hi
      simp only [writeByte]
      split_ifs <;> first | rfl | omega
    · simp [writeByte]
    · intro i hi hi2
      simp [writeByte] at hi2
      simp only [writeByte]
      split_ifs <;> first | rfl | omega
  rw [if_neg hp] at h; clear hp
  cases h

/-- C12: for every mode 1 request that `processRequest` reports as handled,
`outData[0]` is the length of the data returned, 1, 2 or 4: the offsets from 3 to
`2 + outData[0]` hold bytes written by the call, the same whatever buffer `outData'`
is passed in, and every offset from `3 + outData[0]` on keeps what the caller
supplied. -/
theorem processRequest_length (mc : MotorController) (inData outData outData' out : Buffer)
    (hm : readByte inData 1 = 1)
    (h : processRequest mc inData outData = some (true, out)) :
    (out 0 = 1 ∨ out 0 = 2 ∨ out 0 = 4) ∧
    (∀ i, 3 + out 0 ≤ i → out i = outData i) ∧
    ∃ out', processRequest mc inData outData' = some (true, out') ∧ out' 0 = out 0 ∧
      ∀ i, 3 ≤ i → i < 3 + out 0 → out' i = out i := by
  have hmode : ¬ readByte inData 1 > 0x50 := by omega
  unfold processRequest at h ⊢
  simp only [if_neg hmode, if_pos hm] at h ⊢
  cases hs : processShowData mc (requestPid inData) inData
      (writeByte (writeByte outData 2 (readByte inData 2)) 0 2) with
  | none => rw [hs] at h; cases h
  | some r =>
    obtain ⟨ret, mid⟩ := r
    rw [hs] at h
    simp only [Option.some.injEq, Prod.mk.injEq] at h
    obtain ⟨hret, hout⟩ := h
    subst hret
    obtain ⟨hlen, hkeep, mid', hs', hlen', hsame⟩ := processShowData_length mc
      (requestPid inData) inData (writeByte (writeByte outData 2 (readByte inData 2)) 0 2)
      (writeByte (writeByte outData' 2 (readByte inData 2)) 0 2) mid hs
    have h0 : out 0 = mid 0 := by rw [← hout]; simp [writeByte]
    have hfar : ∀ i, 3 ≤ i → out i = mid i := by
      intro i hi
      rw [← hout]
      simp only [writeByte]
      rw [if_neg (by omega), if_neg (by omega)]
    refine ⟨by rw [h0]; exact hlen, ?_, ?_⟩
    · intro i hi
      rw [h0] at hi
      rw [hfar i (by omega), hkeep i (Or.inl hi)]
      simp only [writeByte]
      rw [if_neg (by omega), if_neg (by omega)]
    · rw [hs']
      refine ⟨_, rfl, ?_, ?_⟩
      · rw [h0, ← hlen']; simp [writeByte]
      · intro i hi hi2
        rw [h0] at hi2
        rw [hfar i hi, ← hsame i hi hi2]
        simp only [writeByte]
        rw [if_neg (by omega), if_neg (by omega)]

/-- C12 at a concrete request: mode 1, PID 0x0C at 3000 rpm answers with the length
2, for a zeroed buffer and for any other. -/
theorem processRequest_length_witness :
    ∃ out, processRequest { idleController with speedActual := 3000 } (frame [2, 1, 0xC])
        zeroBuffer = some (true, out) ∧ out 0 = 2 ∧ out 3 = 0x2E ∧ out 4 = 0xE0 ∧
      (out 0 = 1 ∨ out 0 = 2 ∨ out 0 = 4) ∧ ∀ i, 3 + out 0 ≤ i → out i = zeroBuffer i := by
  have h : processRequest { idleController with speedActual := 3000 } (frame [2, 1, 0xC])
      zeroBuffer = some (true, writeByte (writeByte (writeByte (writeByte (writeByte
        (writeByte (writeByte zeroBuffer 2 0xC) 0 2) 0 2) 3 0x2E) 4 0x2EE0) 1 0x41) 2 0xC) := rfl
  obtain ⟨hlen, hkeep, _⟩ := processRequest_length { idleController with speedActual := 3000 }
    (frame [2, 1, 0xC]) zeroBuffer zeroBuffer _ (by decide) h
  exact ⟨_, h, by decide, by decide, by decide, hlen, hkeep⟩

end GEVCU
